import Mathlib

/-!
Verification development for the volume-processing and surface-reconstruction
pipeline of the 3D_reconstruction_project repository (backend/processing.py and
the pipeline route of backend/routes.py).

Scalar samples are modelled over ℚ (the source stores float32 / int16 arrays;
every comparison and arithmetic step the claims mention is exact in ℚ).
3D arrays are modelled as a shape triple in (depth, row, column) order plus a
total indexing function.  Fallible steps return Except.  The environment a run
observes (directory listing, decodability of each file, success of each
storage write, the random noise samples of the synthesis path) is an explicit
Env record, so every branch of processing.py is a branch of a pure function.
-/

/-- Rational triple, used for 3D vertices and for per-axis spacing vectors. -/
abbrev Vec3 : Type := ℚ × ℚ × ℚ

/-- Dense 3D array of rational samples: shape (depth, rows, columns) plus a
total indexing function, mirroring a float numpy array of processing.py. -/
structure RawVol where
  dim : ℕ × ℕ × ℕ
  data : ℕ → ℕ → ℕ → ℚ

/-- Dense 3D array of integer samples, mirroring an integer numpy array
(the decoded DICOM samples before conversion to HU). -/
structure ZVol where
  dim : ℕ × ℕ × ℕ
  data : ℕ → ℕ → ℕ → ℤ

/-- Dense 3D array of natural samples, mirroring the uint8 mask array written
by run_segmentation. -/
structure MaskVol where
  dim : ℕ × ℕ × ℕ
  data : ℕ → ℕ → ℕ → ℕ

/-- Cast an integer volume to a rational one (numpy implicit dtype promotion
when the int16 HU array enters scipy.ndimage.zoom). -/
def zvolToQ (v : ZVol) : RawVol :=
  { dim := v.dim, data := fun z y x => ((v.data z y x : ℤ) : ℚ) }

/-- Cast a mask volume to a rational scalar field (the uint8 mask array is
handed to skimage.measure.marching_cubes as a scalar field). -/
def maskToQ (m : MaskVol) : RawVol :=
  { dim := m.dim, data := fun z y x => ((m.data z y x : ℕ) : ℚ) }

/-- numpy.transpose(2, 1, 0) on a mask volume (processing.py line 258):
out[z, y, x] = in[x, y, z], and the shape triple is reversed. -/
def transpose210 (m : MaskVol) : MaskVol :=
  { dim := (m.dim.2.2, m.dim.2.1, m.dim.1), data := fun z y x => m.data x y z }

/-- numpy.round on a rational scalar: round half to even, which is the
rounding mode numpy.round applies in resample. -/
def npRound (q : ℚ) : ℤ :=
  let f : ℤ := Int.floor q
  let r : ℚ := q - (f : ℚ)
  if r < 1/2 then f
  else if 1/2 < r then f + 1
  else if f % 2 = 0 then f else f + 1

/-- numpy astype(int16): wrap an integer into the signed 16-bit range, the
conversion performed at processing.py line 183. -/
def toInt16 (n : ℤ) : ℤ := (n + 32768) % 65536 - 32768

/-- Per-voxel HU normalization of processing.py lines 183 and 184: convert the
sample to int16, then replace the sentinel value -2000 (air outside the scan
field of view) by 0. -/
def normVoxel (n : ℤ) : ℤ :=
  if toInt16 n = -2000 then 0 else toInt16 n

/-- Intensity Normalizer applied to a whole decoded volume: the two numpy
statements at processing.py lines 183 and 184 act elementwise. -/
def normalizeZVol (v : ZVol) : ZVol :=
  { dim := v.dim, data := fun z y x => normVoxel (v.data z y x) }

/-- Threshold of run_segmentation (processing.py line 228). -/
def SEG_THRESHOLD : ℚ := 200

/-- Per-voxel mask value of run_segmentation (processing.py line 230):
(volume > threshold).astype(uint8), a strict comparison. -/
def segVoxel (q : ℚ) : ℕ :=
  if SEG_THRESHOLD < q then 1 else 0

/-- Mask Segmenter core: the numpy comparison of processing.py line 230 acts
elementwise and keeps the shape. -/
def segmentVolume (v : RawVol) : MaskVol :=
  { dim := v.dim, data := fun z y x => segVoxel (v.data z y x) }

/-- Interpolated samples of scipy.ndimage.zoom.  The source calls zoom with
cubic-spline interpolation and mode=nearest; no claim of this development
refers to an interpolated sample value, so the sample lookup is modelled as a
floor-scaled index lookup with edge clamping, while the output shape and the
failure behavior of zoom are modelled exactly in zoomOutput below. -/
def zoomData (v : RawVol) (f : Vec3) : ℕ → ℕ → ℕ → ℚ :=
  fun z y x =>
    v.data
      (min (Int.toNat (Int.floor ((z : ℚ) / f.1))) (v.dim.1 - 1))
      (min (Int.toNat (Int.floor ((y : ℚ) / f.2.1))) (v.dim.2.1 - 1))
      (min (Int.toNat (Int.floor ((x : ℚ) / f.2.2))) (v.dim.2.2 - 1))

/-- scipy.ndimage.zoom called with per-axis factor f: the output shape is
round(input_shape * f) per axis; numpy.zeros raises on a negative dimension,
while a zero-size output is allowed (the interpolation loop is empty and an
empty array is returned without error). -/
def zoomOutput (v : RawVol) (f : Vec3) : Except String RawVol :=
  let n1 : ℤ := npRound ((v.dim.1 : ℚ) * f.1)
  let n2 : ℤ := npRound ((v.dim.2.1 : ℚ) * f.2.1)
  let n3 : ℤ := npRound ((v.dim.2.2 : ℚ) * f.2.2)
  if n1 < 0 ∨ n2 < 0 ∨ n3 < 0 then
    Except.error "negative dimensions are not allowed"
  else
    Except.ok { dim := (Int.toNat n1, Int.toNat n2, Int.toNat n3), data := zoomData v f }

/-- resample of processing.py lines 205 to 212: per-axis resize factor
s / t, rounded target shape, the real factor new_shape / shape, the reported
spacing s / real_factor (computed before zoom runs), then the zoom call.
Division by a zero real factor is ℚ-division (q / 0 = 0); numpy produces inf
with a warning there, and no claim depends on the spacing value reported for
a zero-count axis. -/
def resample (v : RawVol) (s : Vec3) (t : Vec3) : Except String (RawVol × Vec3) :=
  let f : Vec3 := (s.1 / t.1, s.2.1 / t.2.1, s.2.2 / t.2.2)
  let n1 : ℤ := npRound ((v.dim.1 : ℚ) * f.1)
  let n2 : ℤ := npRound ((v.dim.2.1 : ℚ) * f.2.1)
  let n3 : ℤ := npRound ((v.dim.2.2 : ℚ) * f.2.2)
  let rf : Vec3 := ((n1 : ℚ) / (v.dim.1 : ℚ), (n2 : ℚ) / (v.dim.2.1 : ℚ), (n3 : ℚ) / (v.dim.2.2 : ℚ))
  let nsp : Vec3 := (s.1 / rf.1, s.2.1 / rf.2.1, s.2.2 / rf.2.2)
  match zoomOutput v rf with
  | Except.error e => Except.error e
  | Except.ok rv => Except.ok (rv, nsp)

/-- Deterministic part of the synthetic volume of generate_synthetic_volume
(processing.py lines 34 to 66): a 128-cube; first loop writes 50 inside the
central sphere of radius 32 and 800 in the shell up to radius 37; the second
loop overwrites with 100 inside the smaller sphere of radius 16 centred at
x = 79, y = 54, z = 64.  The source compares Euclidean distances against
integer radii; squared distances give the same branches exactly. -/
def synthBase (z y x : ℕ) : ℚ :=
  let dx : ℤ := (x : ℤ) - 64
  let dy : ℤ := (y : ℤ) - 64
  let dz : ℤ := (z : ℤ) - 64
  let d2 : ℤ := dx * dx + dy * dy + dz * dz
  let base : ℚ := if d2 < 1024 then 50 else if d2 < 1369 then 800 else 0
  let sx : ℤ := (x : ℤ) - 79
  let sy : ℤ := (y : ℤ) - 54
  let sz : ℤ := (z : ℤ) - 64
  let s2 : ℤ := sx * sx + sy * sy + sz * sz
  if s2 < 256 then 100 else base

/-- Raw synthetic volume: the deterministic spheres plus the per-voxel
Gaussian noise samples (processing.py lines 69 and 70), taken as an
environment-supplied noise function.  This is exactly the array saved to the
Volume artifact slot by generate_synthetic_volume; no normalization and no
resampling touches it. -/
def synthVol (noise : ℕ → ℕ → ℕ → ℚ) : RawVol :=
  { dim := (128, 128, 128), data := fun z y x => synthBase z y x + noise z y x }

/-- One candidate file of the DICOM input directory, with the metadata the
decode path of process_dicom consults: the file name (as a character list),
whether sitk.ReadImage succeeds on it, the ordering key extracted from its
position metadata, and the decoded single-slice image with its (x, y, z)
spacing, used by the degraded single-slice branch. -/
structure DicomFile where
  name : List Char
  decodable : Bool
  posKey : ℚ
  img : ZVol
  spc : Vec3

/-- Environment one process_dicom run observes: the directory state, the
outcome of the SimpleITK reader (series detection, joined image, spacing as
reported in (x, y, z) order), whether each storage write succeeds, and the
synthesis inputs (noise samples, array-construction and save success). -/
structure Env where
  dirExists : Bool
  files : List DicomFile
  seriesFound : Bool
  seriesJoinOk : Bool
  readImg : ZVol
  readSpc : Vec3
  dicomSaveOk : Bool
  noise : ℕ → ℕ → ℕ → ℚ
  synthArrayOk : Bool
  synthSaveOk : Bool

/-- Normal-and-vertices record of one binary STL triangle: facet normal, the
three vertices, and the 16-bit attribute count field. -/
structure STLTriRecord where
  normal : Vec3
  v1 : Vec3
  v2 : Vec3
  v3 : Vec3
  attr : ℕ
deriving DecidableEq

/-- Content of the binary STL artifact file: the declared triangle count of
the header region and the triangle records actually present.  The fixed
80-byte header text is constant and not modelled.  A file is complete when
records.length equals count. -/
structure STLBinary where
  count : ℕ
  records : List STLTriRecord
deriving DecidableEq

/-- Persisted artifact slots of the pipeline: volume.npy, spacing.npy,
segmented_volume.npy and organ_model.stl, each a singleton slot overwritten
per run; none means the artifact has never been produced. -/
structure Store where
  volume : Option RawVol
  spacing : Option Vec3
  mask : Option MaskVol
  meshFile : Option STLBinary

/-- Empty store: no artifact has ever been persisted. -/
def st0 : Store := { volume := none, spacing := none, mask := none, meshFile := none }

/-- Lower-case an ASCII character, as str.lower does on the file names the
candidate filter of process_dicom inspects. -/
def lowerChar (c : Char) : Char :=
  if 65 ≤ c.toNat ∧ c.toNat ≤ 90 then Char.ofNat (c.toNat + 32) else c

/-- Candidate filter of process_dicom line 106: the lower-cased name ends in
.dcm or .dicom, or the name contains no dot at all. -/
def isDicomCandidate (name : List Char) : Bool :=
  ['.', 'd', 'c', 'm'].isSuffixOf (name.map lowerChar)
    || ['.', 'd', 'i', 'c', 'o', 'm'].isSuffixOf (name.map lowerChar)
    || !(name.contains '.')

/-- Files of the input directory that pass the candidate filter
(processing.py lines 100 to 109). -/
def dicomCandidates (env : Env) : List DicomFile :=
  env.files.filter (fun f => isDicomCandidate f.name)

/-- Candidate files sitk.ReadImage can decode (processing.py lines 135 to
150; files whose read raises are logged and skipped). -/
def decodableSlices (env : Env) : List DicomFile :=
  (dicomCandidates env).filter (fun f => f.decodable)

/-- Insert one slice into a position-sorted slice list (ascending key). -/
def insertSlice (f : DicomFile) : List DicomFile → List DicomFile
  | [] => [f]
  | g :: t => if f.posKey ≤ g.posKey then f :: g :: t else g :: insertSlice f t

/-- Sort slices ascending by ordering key, modelling the
slices_data.sort(key=position) call of processing.py line 157. -/
def sortSlices (l : List DicomFile) : List DicomFile :=
  l.foldr insertSlice []

/-- Reverse an (x, y, z) spacing triple into (z, y, x) order, the
list(image.GetSpacing())[::-1] step of processing.py line 177. -/
def revSp (s : Vec3) : Vec3 := (s.2.2, s.2.1, s.1)

/-- Series-reading block of process_dicom (lines 120 to 172): when GDCM
reports a series, the series is read whole; otherwise each candidate is
decoded individually, undecodable ones are skipped, and if none decodes the
result is none (the caller then synthesizes).  The decodables are sorted by
position key; if joining them fails, the first sorted slice alone is the
degraded result.  Returns the chosen image and its (x, y, z) spacing. -/
def readSeries (env : Env) : Option (ZVol × Vec3) :=
  if env.seriesFound then some (env.readImg, env.readSpc)
  else
    let slices := decodableSlices env
    if slices.isEmpty then none
    else
      match sortSlices slices with
      | [] => none
      | f :: _ =>
          if env.seriesJoinOk then some (env.readImg, env.readSpc)
          else some (f.img, f.spc)

/-- Synthesis fallback generate_synthetic_volume (processing.py lines 26 to
84): on success the raw synthetic array and the isotropic spacing (1, 1, 1)
are saved to the Volume and Spacing slots and True is returned; if the array
construction or a save raises, the exception is logged and re-raised. -/
def generate_synthetic_volume (env : Env) (st : Store) : Except String (Store × Bool) :=
  if env.synthArrayOk && env.synthSaveOk then
    Except.ok ({ st with volume := some (synthVol env.noise), spacing := some ((1 : ℚ), 1, 1) }, true)
  else
    Except.error "Error generating synthetic volume"

/-- Body of the try block of process_dicom (lines 93 to 198): directory and
candidate checks with synthesis fallback, the reader block, HU conversion,
isotropic resampling, and the two saves (modelled as one success flag).
An Except.error models an exception escaping the try body. -/
def processTry (env : Env) (st : Store) : Except String (Store × Bool) :=
  if !env.dirExists || env.files.isEmpty then generate_synthetic_volume env st
  else if (dicomCandidates env).isEmpty then generate_synthetic_volume env st
  else
    match readSeries env with
    | none => generate_synthetic_volume env st
    | some (img, spXYZ) =>
        let hu := normalizeZVol img
        match resample (zvolToQ hu) (revSp spXYZ) ((1 : ℚ), 1, 1) with
        | Except.error e => Except.error e
        | Except.ok (rv, nsp) =>
            if env.dicomSaveOk then
              Except.ok ({ st with volume := some rv, spacing := some nsp }, true)
            else Except.error "save failed"

/-- process_dicom with its outer exception handler (lines 199 to 203): any
exception escaping the try body is caught and the synthesis fallback is run;
an exception raised by that fallback call propagates to the caller. -/
def process_dicom (env : Env) (st : Store) : Except String (Store × Bool) :=
  match processTry env st with
  | Except.ok r => Except.ok r
  | Except.error _ => generate_synthetic_volume env st

/-- Conditions under which process_dicom reaches a synthesis fallback before
any DICOM volume is decoded: missing directory, empty directory, no candidate
file, or no GDCM series and no individually decodable candidate. -/
def noDecodableInput (env : Env) : Prop :=
  env.dirExists = false
    ∨ env.files.isEmpty = true
    ∨ (dicomCandidates env).isEmpty = true
    ∨ (env.seriesFound = false ∧ (decodableSlices env).isEmpty = true)

/-- Conditions under which a run of process_dicom takes the synthesis
fallback: no decodable input, or a storage failure on the decoded path
(whose exception the outer handler absorbs by synthesizing). -/
def fallbackTrigger (env : Env) : Prop :=
  noDecodableInput env ∨ env.dicomSaveOk = false

/-- run_segmentation (processing.py lines 214 to 239): load the Volume
artifact (np.load raises when it is absent, and the handler re-raises),
threshold it, and save the mask artifact. -/
def run_segmentation (st : Store) : Except String (Store × Bool) :=
  match st.volume with
  | none => Except.error "volume artifact not found"
  | some v => Except.ok ({ st with mask := some (segmentVolume v) }, true)

/-- Flat list of the samples of a volume in index order, used for the
min and max reductions of the marching-cubes level check. -/
def volValues (v : RawVol) : List ℚ :=
  (List.range v.dim.1).flatMap (fun z =>
    (List.range v.dim.2.1).flatMap (fun y =>
      (List.range v.dim.2.2).map (fun x => v.data z y x)))

/-- Minimum of a sample list, as numpy min (none on an empty array, where
numpy raises). -/
def listMinQ : List ℚ → Option ℚ
  | [] => none
  | a :: t => some (t.foldl min a)

/-- Maximum of a sample list, as numpy max. -/
def listMaxQ : List ℚ → Option ℚ
  | [] => none
  | a :: t => some (t.foldl max a)

/-- Vertex list and triangle list returned by marching cubes. -/
structure MCResult where
  verts : List Vec3
  faces : List (ℕ × ℕ × ℕ)

/-- Triangulation core of skimage.measure.marching_cubes.  No claim of this
development refers to the triangles the Lewiner table construction emits
(the claims concern the level-range guard below and the serialization of an
arbitrary vertex and face list), so the core is modelled as returning no
geometry. -/
def mcCore (_v : RawVol) (_level : ℚ) : MCResult :=
  { verts := [], faces := [] }

/-- skimage.measure.marching_cubes(vol, level) validation, in library
order: first the shape check — the input must be 3D (inherent in the RawVol
type here) with at least 2 voxels along every axis, else ValueError — then
numpy min and max of the field (raising on an empty array, unreachable once
the shape check passed), then the level check: a level strictly outside the
closed data range raises ValueError with the message modelled here.
Otherwise the triangulation runs. -/
def marching_cubes (v : RawVol) (level : ℚ) : Except String MCResult :=
  if v.dim.1 < 2 ∨ v.dim.2.1 < 2 ∨ v.dim.2.2 < 2 then
    Except.error "Input array must be at least 2x2x2."
  else
    match listMinQ (volValues v), listMaxQ (volValues v) with
    | some lo, some hi =>
        if level < lo ∨ hi < level then
          Except.error "Surface level must not be outside volume data range."
        else Except.ok (mcCore v level)
    | _, _ => Except.error "zero-size array reduction has no identity"

/-- Vector subtraction on vertices. -/
def subV (a b : Vec3) : Vec3 := (a.1 - b.1, a.2.1 - b.2.1, a.2.2 - b.2.2)

/-- Cross product, the facet normal numpy-stl computes from the vertices of
the triangle itself when saving (update_normals). -/
def crossV (a b : Vec3) : Vec3 :=
  (a.2.1 * b.2.2 - a.2.2 * b.2.1,
   a.2.2 * b.1 - a.1 * b.2.2,
   a.1 * b.2.1 - a.2.1 * b.1)

/-- Triangle of one face: the three vertex positions looked up by index in
the vertex list (processing.py lines 263 to 265, stl_mesh.vectors[i][j] =
verts[f[j]]).  Marching cubes only emits in-range indices; an out-of-range
index falls back to the origin. -/
def triOf (verts : List Vec3) (f : ℕ × ℕ × ℕ) : Vec3 × Vec3 × Vec3 :=
  (verts.getD f.1 (0, 0, 0), verts.getD f.2.1 (0, 0, 0), verts.getD f.2.2 (0, 0, 0))

/-- Binary STL records built from the extractor output: one record per face,
with the facet normal recomputed from the triangle vertices and a zero
attribute field, as numpy-stl writes them. -/
def buildRecords (verts : List Vec3) (faces : List (ℕ × ℕ × ℕ)) : List STLTriRecord :=
  faces.map (fun f =>
    let t := triOf verts f
    { normal := crossV (subV t.2.1 t.1) (subV t.2.2 t.1),
      v1 := t.1, v2 := t.2.1, v3 := t.2.2, attr := 0 })

/-- Mesh Serializer write path (numpy-stl mesh save on the artifact path):
the target file is opened for writing directly, which truncates whatever was
there; the header region (declaring the full triangle count) and then the
records are written in sequence.  failAfter models an I/O failure after that
many records have been written: the already-written content stays on disk,
no temporary file exists and nothing is deleted.  Returns the resulting file
content and the success flag. -/
def stlSave (recs : List STLTriRecord) (failAfter : Option ℕ) : STLBinary × Bool :=
  match failAfter with
  | none => ({ count := recs.length, records := recs }, true)
  | some k =>
      if recs.length ≤ k then ({ count := recs.length, records := recs }, true)
      else ({ count := recs.length, records := recs.take k }, false)

/-- STL model write of create_3d_model (processing.py lines 262 to 266):
build the records from the extractor output and save them over the previous
mesh artifact.  The previous slot content is destroyed by the truncating
open regardless of the write outcome. -/
def writeMeshArtifact (verts : List Vec3) (faces : List (ℕ × ℕ × ℕ))
    (failAfter : Option ℕ) (_prev : Option STLBinary) : Option STLBinary × Bool :=
  let r := stlSave (buildRecords verts faces) failAfter
  (some r.1, r.2)

/-- Parse a binary STL file back into its triangles (vertex triples).  The
repository contains no STL reader; this is the record-level inverse of the
triangle-soup format of the spec (fixed header, per-triangle normal and
three vertices). -/
def readSTL (b : STLBinary) : List (Vec3 × Vec3 × Vec3) :=
  b.records.map (fun r => (r.v1, r.v2, r.v3))

/-- Serialize extractor output as a complete binary STL file (the successful
save path, no injected failure). -/
def writeSTL (recs : List STLTriRecord) : STLBinary :=
  { count := recs.length, records := recs }

/-- create_3d_model (processing.py lines 241 to 272): require the mask
artifact (FileNotFoundError otherwise), transpose it to (x, y, z) order,
run marching cubes at level 0.5, and write the STL artifact; any exception
is logged and re-raised. -/
def create_3d_model (failAfter : Option ℕ) (st : Store) : Except String Store :=
  match st.mask with
  | none => Except.error "Segmented volume not found"
  | some m =>
      match marching_cubes (maskToQ (transpose210 m)) (1/2) with
      | Except.error e => Except.error e
      | Except.ok r =>
          let w := writeMeshArtifact r.verts r.faces failAfter st.meshFile
          if w.2 then Except.ok { st with meshFile := w.1 }
          else Except.error "Error saving STL model"

/-- Pipeline invocation of routes.py (start_processing): process_dicom, then
run_segmentation, then create_3d_model, reporting a single overall outcome;
the first exception aborts the remainder. -/
def start_processing (env : Env) (failAfter : Option ℕ) (st : Store) : Except String Store :=
  match process_dicom env st with
  | Except.error e => Except.error e
  | Except.ok (st1, _) =>
      match run_segmentation st1 with
      | Except.error e => Except.error e
      | Except.ok (st2, _) => create_3d_model failAfter st2

/-- Constructor-level success test for Except results whose payload contains
functions (and therefore has no decidable equality). -/
def exOk {α : Type} (e : Except String α) : Bool :=
  match e with
  | Except.ok _ => true
  | Except.error _ => false

/-- Shape of the volume a resample result carries, none on failure; gives a
decidable view of the result used by concrete evaluations. -/
def resDim (r : Except String (RawVol × Vec3)) : Option (ℕ × ℕ × ℕ) :=
  match r with
  | Except.ok (rv, _) => some rv.dim
  | Except.error _ => none

/-- Zero-filled integer volume used as a decoded-image stand-in in concrete
environments. -/
def zvol4 : ZVol := { dim := (4, 4, 4), data := fun _ _ _ => 0 }

/-- Concrete candidate file: decodable, named a.dcm. -/
def fileA : DicomFile :=
  { name := ['a', '.', 'd', 'c', 'm'], decodable := true, posKey := 0,
    img := zvol4, spc := ((1 : ℚ), 1, 1) }

/-- Environment with no input directory and a working synthesis path. -/
def envNoDir : Env :=
  { dirExists := false, files := [], seriesFound := false, seriesJoinOk := false,
    readImg := zvol4, readSpc := ((1 : ℚ), 1, 1), dicomSaveOk := true,
    noise := fun _ _ _ => 0, synthArrayOk := true, synthSaveOk := true }

/-- Environment holding a decodable series whose post-resample save fails,
while the synthesis path works. -/
def envSaveFail : Env :=
  { dirExists := true, files := [fileA], seriesFound := true, seriesJoinOk := true,
    readImg := zvol4, readSpc := ((1 : ℚ), 1, 1), dicomSaveOk := false,
    noise := fun _ _ _ => 0, synthArrayOk := true, synthSaveOk := true }

/-- Environment holding a decodable series whose post-resample save fails
and whose synthesis save also fails. -/
def envAllFail : Env :=
  { dirExists := true, files := [fileA], seriesFound := true, seriesJoinOk := true,
    readImg := zvol4, readSpc := ((1 : ℚ), 1, 1), dicomSaveOk := false,
    noise := fun _ _ _ => 0, synthArrayOk := true, synthSaveOk := false }

/-- Environment taking the fallback because storage on the decoded path
fails; distinct noise samples, synthesis succeeds. -/
def envFallback : Env :=
  { dirExists := true, files := [fileA], seriesFound := true, seriesJoinOk := true,
    readImg := zvol4, readSpc := ((1 : ℚ), 1, 1), dicomSaveOk := false,
    noise := fun _ _ _ => 3, synthArrayOk := true, synthSaveOk := true }

/-- Concrete volume artifact with a single above-threshold voxel value. -/
def volSeg : RawVol := { dim := (1, 1, 1), data := fun _ _ _ => 250 }

/-- Store holding volSeg in the Volume slot. -/
def stSeg : Store := { volume := some volSeg, spacing := none, mask := none, meshFile := none }

/-- Concrete volume of shape (10, 10, 10). -/
def vol10 : RawVol := { dim := (10, 10, 10), data := fun _ _ _ => 0 }

/-- Sentinel-valued integer volume for the normalizer evaluation. -/
def zvolSentinel : ZVol := { dim := (1, 1, 1), data := fun _ _ _ => -2000 }

/-- All-zero 2-cube mask: every voxel below the iso-level. -/
def maskZero : MaskVol := { dim := (2, 2, 2), data := fun _ _ _ => 0 }

/-- All-one 2-cube mask: every voxel above the iso-level. -/
def maskOne : MaskVol := { dim := (2, 2, 2), data := fun _ _ _ => 1 }

/-- Store holding the all-zero mask. -/
def stMaskZero : Store := { volume := none, spacing := none, mask := some maskZero, meshFile := none }

/-- Store holding the all-one mask. -/
def stMaskOne : Store := { volume := none, spacing := none, mask := some maskOne, meshFile := none }

/-- Two concrete vertices plus origin, enough for two distinct triangles. -/
def vertsC : List Vec3 := [((0 : ℚ), 0, 0), ((1 : ℚ), 0, 0), ((0 : ℚ), 1, 0), ((0 : ℚ), 0, 1)]

/-- Two concrete faces over vertsC. -/
def facesC : List (ℕ × ℕ × ℕ) := [(0, 1, 2), (1, 2, 3)]

/-- A complete previously persisted mesh artifact with one triangle. -/
def prevMesh : STLBinary :=
  { count := 1,
    records := [{ normal := ((0 : ℚ), 0, 1), v1 := ((0 : ℚ), 0, 0),
                  v2 := ((1 : ℚ), 0, 0), v3 := ((0 : ℚ), 1, 0), attr := 0 }] }

/-- Error-message view of an Except result whose payload carries functions
(and therefore has no decidable equality). -/
def exErr {α : Type} (e : Except String α) : Option String :=
  match e with
  | Except.ok _ => none
  | Except.error s => some s

/-- Exact content left on disk when the write of the two-triangle mesh built
from vertsC and facesC fails after one record: the header declares two
triangles but only the first record is present. -/
def truncatedMeshFile : STLBinary :=
  { count := 2, records := (buildRecords vertsC facesC).take 1 }

section PipelineProofs

attribute [local semireducible] Rat.mul Rat.inv Rat.add Rat.sub

/-- Division collapse used by the spacing law: s / (s / x) = x in ℚ once
s is nonzero (both sides are 0 when x is 0). -/
lemma div_div_self_q (s x : ℚ) (hs : s ≠ 0) : s / (s / x) = x := by
  rw [div_div_eq_mul_div, mul_comm, mul_div_assoc, div_self hs, mul_one]

/-- Round-half-to-even of a nonnegative rational is nonnegative. -/
lemma npRound_nonneg (q : ℚ) (h : 0 ≤ q) : 0 ≤ npRound q := by
  have hf : (0 : ℤ) ≤ Int.floor q := Int.le_floor.mpr (by exact_mod_cast h)
  unfold npRound
  dsimp only
  split
  · exact hf
  · split
    · omega
    · split <;> omega

/-- Round-half-to-even of an integer is that integer. -/
lemma npRound_int (n : ℤ) : npRound ((n : ℚ)) = n := by
  unfold npRound
  simp only [Int.floor_intCast, sub_self]
  rw [if_pos (by norm_num)]

/-- The shape recomputation scipy performs inside zoom agrees with the shape
resample rounded first: round(c * (round(c * q) / c)) = round(c * q). -/
lemma npRound_recompute (c : ℕ) (q : ℚ) :
    npRound ((c : ℚ) * ((npRound ((c : ℚ) * q) : ℚ) / (c : ℚ))) = npRound ((c : ℚ) * q) := by
  rcases eq_or_ne (c : ℚ) 0 with hc | hc
  · rw [hc, zero_mul, zero_mul]
  · rw [mul_comm ((c : ℚ)) _, div_mul_cancel₀ _ hc, npRound_int]

/-- With strictly positive spacings the zoom guard passes and resample
returns the rounded shape, the clamped-lookup samples, and the recomputed
spacing s / (round(c * s / t) / c), all in explicit form. -/
lemma resample_ok_of_pos (v : RawVol) (s t : Vec3)
    (hs1 : 0 < s.1) (hs2 : 0 < s.2.1) (hs3 : 0 < s.2.2)
    (ht1 : 0 < t.1) (ht2 : 0 < t.2.1) (ht3 : 0 < t.2.2) :
    resample v s t = Except.ok
      ({ dim := ((npRound ((v.dim.1 : ℚ) * (s.1 / t.1))).toNat,
                 (npRound ((v.dim.2.1 : ℚ) * (s.2.1 / t.2.1))).toNat,
                 (npRound ((v.dim.2.2 : ℚ) * (s.2.2 / t.2.2))).toNat),
         data := zoomData v
           (((npRound ((v.dim.1 : ℚ) * (s.1 / t.1)) : ℤ) : ℚ) / (v.dim.1 : ℚ),
            ((npRound ((v.dim.2.1 : ℚ) * (s.2.1 / t.2.1)) : ℤ) : ℚ) / (v.dim.2.1 : ℚ),
            ((npRound ((v.dim.2.2 : ℚ) * (s.2.2 / t.2.2)) : ℤ) : ℚ) / (v.dim.2.2 : ℚ)) },
       (s.1 / (((npRound ((v.dim.1 : ℚ) * (s.1 / t.1)) : ℤ) : ℚ) / (v.dim.1 : ℚ)),
        s.2.1 / (((npRound ((v.dim.2.1 : ℚ) * (s.2.1 / t.2.1)) : ℤ) : ℚ) / (v.dim.2.1 : ℚ)),
        s.2.2 / (((npRound ((v.dim.2.2 : ℚ) * (s.2.2 / t.2.2)) : ℤ) : ℚ) / (v.dim.2.2 : ℚ)))) := by
  have h1 : 0 ≤ npRound ((v.dim.1 : ℚ) * (s.1 / t.1)) :=
    npRound_nonneg _ (mul_nonneg (Nat.cast_nonneg _) (le_of_lt (div_pos hs1 ht1)))
  have h2 : 0 ≤ npRound ((v.dim.2.1 : ℚ) * (s.2.1 / t.2.1)) :=
    npRound_nonneg _ (mul_nonneg (Nat.cast_nonneg _) (le_of_lt (div_pos hs2 ht2)))
  have h3 : 0 ≤ npRound ((v.dim.2.2 : ℚ) * (s.2.2 / t.2.2)) :=
    npRound_nonneg _ (mul_nonneg (Nat.cast_nonneg _) (le_of_lt (div_pos hs3 ht3)))
  unfold resample zoomOutput
  dsimp only
  rw [npRound_recompute, npRound_recompute, npRound_recompute]
  rw [if_neg (by push_neg; exact ⟨h1, h2, h3⟩)]

/-- Claim C2: for every volume with strictly positive per-axis spacing s and
target spacing t, resample succeeds and its reported output spacing obeys
original_spacing[i] / new_spacing[i] = round(count[i] * original_spacing[i]
/ target[i]) / count[i] on each axis: the reported spacing reflects the
rounded voxel grid exactly, never the nominal target. -/
theorem resample_spacing_law (v : RawVol) (s t : Vec3)
    (hs1 : 0 < s.1) (hs2 : 0 < s.2.1) (hs3 : 0 < s.2.2)
    (ht1 : 0 < t.1) (ht2 : 0 < t.2.1) (ht3 : 0 < t.2.2) :
    ∃ rv nsp, resample v s t = Except.ok (rv, nsp) ∧
      s.1 / nsp.1 = ((npRound ((v.dim.1 : ℚ) * s.1 / t.1) : ℤ) : ℚ) / (v.dim.1 : ℚ) ∧
      s.2.1 / nsp.2.1 = ((npRound ((v.dim.2.1 : ℚ) * s.2.1 / t.2.1) : ℤ) : ℚ) / (v.dim.2.1 : ℚ) ∧
      s.2.2 / nsp.2.2 = ((npRound ((v.dim.2.2 : ℚ) * s.2.2 / t.2.2) : ℤ) : ℚ) / (v.dim.2.2 : ℚ) := by
  refine ⟨_, _, resample_ok_of_pos v s t hs1 hs2 hs3 ht1 ht2 ht3, ?_, ?_, ?_⟩
  · rw [mul_div_assoc]
    exact div_div_self_q _ _ (ne_of_gt hs1)
  · rw [mul_div_assoc]
    exact div_div_self_q _ _ (ne_of_gt hs2)
  · rw [mul_div_assoc]
    exact div_div_self_q _ _ (ne_of_gt hs3)

/-- Witness for resample_spacing_law at shape (10, 10, 10), spacing
(2, 1, 1), target (1, 1, 1). -/
theorem resample_spacing_law_witness :
    (0 : ℚ) < 2 ∧ (0 : ℚ) < 1 ∧
    (∃ rv nsp, resample vol10 ((2 : ℚ), 1, 1) ((1 : ℚ), 1, 1) = Except.ok (rv, nsp) ∧
      (2 : ℚ) / nsp.1 = ((npRound ((vol10.dim.1 : ℚ) * 2 / 1) : ℤ) : ℚ) / (vol10.dim.1 : ℚ) ∧
      (1 : ℚ) / nsp.2.1 = ((npRound ((vol10.dim.2.1 : ℚ) * 1 / 1) : ℤ) : ℚ) / (vol10.dim.2.1 : ℚ) ∧
      (1 : ℚ) / nsp.2.2 = ((npRound ((vol10.dim.2.2 : ℚ) * 1 / 1) : ℤ) : ℚ) / (vol10.dim.2.2 : ℚ)) :=
  ⟨by norm_num, by norm_num,
    resample_spacing_law vol10 ((2 : ℚ), 1, 1) ((1 : ℚ), 1, 1)
      (by norm_num) (by norm_num) (by norm_num) (by norm_num) (by norm_num) (by norm_num)⟩

/-- Claim C8 (counterexample): at shape (10, 10, 10), spacing (1/100, 1, 1)
and target (1, 1, 1) the rounded count on axis 0 is 0, yet resample does not
fail: it returns a volume with shape (0, 10, 10). -/
theorem resample_zero_count_no_failure :
    npRound ((10 : ℚ) * (((1 : ℚ) / 100) / 1)) = 0 ∧
    resDim (resample vol10 (((1 : ℚ) / 100), 1, 1) ((1 : ℚ), 1, 1)) = some (0, 10, 10) := by
  constructor
  · decide
  · decide

/-- Claim C8 (amended): resample performs no voxel-count validation; for any
volume and strictly positive spacings it returns successfully, with the
per-axis output count round(count[i] * s[i] / t[i]) — possibly zero, in
which case the volume is empty along that axis rather than an error. -/
theorem resample_returns_rounded_counts (v : RawVol) (s t : Vec3)
    (hs1 : 0 < s.1) (hs2 : 0 < s.2.1) (hs3 : 0 < s.2.2)
    (ht1 : 0 < t.1) (ht2 : 0 < t.2.1) (ht3 : 0 < t.2.2) :
    ∃ rv nsp, resample v s t = Except.ok (rv, nsp) ∧
      rv.dim = ((npRound ((v.dim.1 : ℚ) * (s.1 / t.1))).toNat,
                (npRound ((v.dim.2.1 : ℚ) * (s.2.1 / t.2.1))).toNat,
                (npRound ((v.dim.2.2 : ℚ) * (s.2.2 / t.2.2))).toNat) :=
  ⟨_, _, resample_ok_of_pos v s t hs1 hs2 hs3 ht1 ht2 ht3, rfl⟩

/-- Witness for resample_returns_rounded_counts at the zero-count input:
spacing (1/100, 1, 1) over 10 voxels rounds to count 0 and still succeeds. -/
theorem resample_returns_rounded_counts_witness :
    (0 : ℚ) < 1 / 100 ∧
    (∃ rv nsp, resample vol10 (((1 : ℚ) / 100), 1, 1) ((1 : ℚ), 1, 1) = Except.ok (rv, nsp) ∧
      rv.dim = ((npRound ((vol10.dim.1 : ℚ) * (((1 : ℚ) / 100) / 1))).toNat,
                (npRound ((vol10.dim.2.1 : ℚ) * ((1 : ℚ) / 1))).toNat,
                (npRound ((vol10.dim.2.2 : ℚ) * ((1 : ℚ) / 1))).toNat)) :=
  ⟨by norm_num,
    resample_returns_rounded_counts vol10 (((1 : ℚ) / 100), 1, 1) ((1 : ℚ), 1, 1)
      (by norm_num) (by norm_num) (by norm_num) (by norm_num) (by norm_num) (by norm_num)⟩

/-- Claim C1: run_segmentation on a store holding a volume succeeds and
persists a mask of the same shape whose elements are exactly 0 or 1, with
mask voxel 1 exactly when the volume voxel strictly exceeds the fixed
threshold 200; voxels equal to the threshold map to 0. -/
theorem run_segmentation_threshold (st : Store) (v : RawVol) (h : st.volume = some v) :
    run_segmentation st = Except.ok ({ st with mask := some (segmentVolume v) }, true) ∧
    (segmentVolume v).dim = v.dim ∧
    (∀ z y x, (segmentVolume v).data z y x = 0 ∨ (segmentVolume v).data z y x = 1) ∧
    (∀ z y x, ((segmentVolume v).data z y x = 1 ↔ 200 < v.data z y x)) ∧
    (∀ z y x, v.data z y x = 200 → (segmentVolume v).data z y x = 0) := by
  refine ⟨by rw [run_segmentation, h], rfl, ?_, ?_, ?_⟩
  · intro z y x
    by_cases hlt : SEG_THRESHOLD < v.data z y x
    · right
      simp [segmentVolume, segVoxel, hlt]
    · left
      simp [segmentVolume, segVoxel, hlt]
  · intro z y x
    simp only [segmentVolume, segVoxel, SEG_THRESHOLD]
    by_cases hlt : (200 : ℚ) < v.data z y x
    · simp [hlt]
    · simp [hlt]
  · intro z y x hx
    simp [segmentVolume, segVoxel, SEG_THRESHOLD, hx]

/-- Witness for run_segmentation_threshold on a one-voxel volume of value
250 held in the Volume slot. -/
theorem run_segmentation_threshold_witness :
    stSeg.volume = some volSeg ∧
    ((segmentVolume volSeg).data 0 0 0 = 1 ↔ 200 < volSeg.data 0 0 0) :=
  ⟨rfl, (run_segmentation_threshold stSeg volSeg rfl).2.2.2.1 0 0 0⟩

/-- Claim C7: the Intensity Normalizer is a pure per-voxel map independent of
spatial position: each voxel is converted to the signed 16-bit intensity
type, the sentinel -2000 becomes 0, every other value is preserved, and
values already in the signed 16-bit range are unchanged by the conversion. -/
theorem normalize_sentinel_pointwise (v : ZVol) (z y x : ℕ) :
    (normalizeZVol v).dim = v.dim ∧
    (normalizeZVol v).data z y x = normVoxel (v.data z y x) ∧
    (toInt16 (v.data z y x) = -2000 → (normalizeZVol v).data z y x = 0) ∧
    (toInt16 (v.data z y x) ≠ -2000 → (normalizeZVol v).data z y x = toInt16 (v.data z y x)) ∧
    (-32768 ≤ v.data z y x → v.data z y x ≤ 32767 → toInt16 (v.data z y x) = v.data z y x) := by
  refine ⟨rfl, rfl, ?_, ?_, ?_⟩
  · intro h
    simp [normalizeZVol, normVoxel, h]
  · intro h
    simp [normalizeZVol, normVoxel, h]
  · intro h1 h2
    unfold toInt16
    omega

/-- Witness for normalize_sentinel_pointwise on a one-voxel volume holding
the sentinel value -2000, which the normalizer maps to 0. -/
theorem normalize_sentinel_pointwise_witness :
    toInt16 (zvolSentinel.data 0 0 0) = -2000 ∧ (normalizeZVol zvolSentinel).data 0 0 0 = 0 :=
  ⟨by decide, (normalize_sentinel_pointwise zvolSentinel 0 0 0).2.2.1 (by decide)⟩

/-- When array construction and both saves succeed, the synthesis fallback
persists the raw synthetic volume and isotropic unit spacing and reports
success. -/
lemma generate_synthetic_volume_ok (env : Env) (st : Store)
    (ha : env.synthArrayOk = true) (hs : env.synthSaveOk = true) :
    generate_synthetic_volume env st =
      Except.ok ({ st with volume := some (synthVol env.noise), spacing := some ((1 : ℚ), 1, 1) }, true) := by
  unfold generate_synthetic_volume
  rw [ha, hs]
  rfl

/-- When array construction or a save fails, the synthesis fallback raises. -/
lemma generate_synthetic_volume_err (env : Env) (st : Store)
    (h : env.synthArrayOk = false ∨ env.synthSaveOk = false) :
    generate_synthetic_volume env st = Except.error "Error generating synthetic volume" := by
  unfold generate_synthetic_volume
  rcases h with h | h <;> rw [h] <;> simp

/-- If the try body itself evaluates to a synthesis-fallback call, the outer
handler changes nothing: a successful fallback passes through, and a failed
fallback is re-run by the handler and fails identically. -/
lemma process_dicom_of_try_synth (env : Env) (st : Store)
    (h : processTry env st = generate_synthetic_volume env st) :
    process_dicom env st = generate_synthetic_volume env st := by
  unfold process_dicom
  rw [h]
  cases hg : generate_synthetic_volume env st <;> simp

/-- If the try body raises, the outer handler runs the synthesis fallback. -/
lemma process_dicom_of_try_error (env : Env) (st : Store) (e : String)
    (h : processTry env st = Except.error e) :
    process_dicom env st = generate_synthetic_volume env st := by
  unfold process_dicom
  rw [h]

/-- With no GDCM series and no decodable candidate, the reader block yields
nothing to decode. -/
lemma readSeries_none_of_no_slices (env : Env)
    (hf : env.seriesFound = false) (hd : (decodableSlices env).isEmpty = true) :
    readSeries env = none := by
  unfold readSeries
  simp [hf, hd]

/-- A decoded image implies the run was not in the no-series, no-decodable
state. -/
lemma readSeries_some_not_degenerate (env : Env) (p : ZVol × Vec3)
    (h : readSeries env = some p) :
    ¬(env.seriesFound = false ∧ (decodableSlices env).isEmpty = true) := by
  rintro ⟨hf, hd⟩
  rw [readSeries_none_of_no_slices env hf hd] at h
  exact Option.noConfusion h

/-- Exhaustive outcome of process_dicom: either the run reduces to the
synthesis fallback, or no fallback trigger held, the decoded-path save
succeeded, and the resampled volume and spacing were persisted. -/
lemma process_dicom_split (env : Env) (st : Store) :
    process_dicom env st = generate_synthetic_volume env st ∨
    (¬ noDecodableInput env ∧ env.dicomSaveOk = true ∧
      ∃ rv nsp, process_dicom env st =
        Except.ok ({ st with volume := some rv, spacing := some nsp }, true)) := by
  by_cases h1 : (!env.dirExists || env.files.isEmpty) = true
  · left
    apply process_dicom_of_try_synth
    unfold processTry
    rw [h1]
    simp
  · rw [Bool.not_eq_true] at h1
    by_cases h2 : (dicomCandidates env).isEmpty = true
    · left
      apply process_dicom_of_try_synth
      unfold processTry
      rw [h1, h2]
      simp
    · rw [Bool.not_eq_true] at h2
      cases hrs : readSeries env with
      | none =>
          left
          apply process_dicom_of_try_synth
          unfold processTry
          rw [h1, h2, hrs]
          simp
      | some p =>
          cases hrz : resample (zvolToQ (normalizeZVol p.1)) (revSp p.2) ((1 : ℚ), 1, 1) with
          | error e =>
              left
              apply process_dicom_of_try_error env st e
              unfold processTry
              rw [h1, h2, hrs]
              simp only [Bool.false_eq_true, if_false]
              rw [hrz]
          | ok q =>
              have hnd : ¬ noDecodableInput env := by
                have hde : env.dirExists = true := by
                  cases hdd : env.dirExists
                  · rw [hdd] at h1; simp at h1
                  · rfl
                have hfe : env.files.isEmpty = false := by
                  cases hff : env.files.isEmpty
                  · rfl
                  · rw [hde, hff] at h1; simp at h1
                intro hnd
                rcases hnd with h | h | h | h
                · rw [h] at hde; cases hde
                · rw [h] at hfe; cases hfe
                · rw [h] at h2; cases h2
                · exact readSeries_some_not_degenerate env p hrs h
              by_cases h3 : env.dicomSaveOk = true
              · right
                refine ⟨hnd, h3, q.1, q.2, ?_⟩
                unfold process_dicom processTry
                rw [h1, h2, hrs]
                simp only [Bool.false_eq_true, if_false]
                rw [hrz, h3]
                simp
              · left
                rw [Bool.not_eq_true] at h3
                apply process_dicom_of_try_error env st "save failed"
                unfold processTry
                rw [h1, h2, hrs]
                simp only [Bool.false_eq_true, if_false]
                rw [hrz, h3]
                simp

/-- Claim C3: when the input directory does not exist, is empty, or contains
no decodable slice file, process_dicom raises nothing: it falls back to
procedural synthesis, succeeds, and persists a Volume of shape
(128, 128, 128) with Spacing (1.0, 1.0, 1.0) (granted working array construction
and storage on the synthesis path, the case claim C4 carves out). -/
theorem process_dicom_no_input (env : Env) (st : Store) (h : noDecodableInput env)
    (ha : env.synthArrayOk = true) (hs : env.synthSaveOk = true) :
    process_dicom env st =
      Except.ok ({ st with volume := some (synthVol env.noise),
                           spacing := some ((1 : ℚ), 1, 1) }, true) ∧
    (synthVol env.noise).dim = (128, 128, 128) := by
  rcases process_dicom_split env st with hcase | ⟨hnd, _⟩
  · rw [hcase, generate_synthetic_volume_ok env st ha hs]
    exact ⟨rfl, rfl⟩
  · exact absurd h hnd

/-- Witness for process_dicom_no_input: a run with no input directory
persists the 128-cube synthetic volume with unit spacing. -/
theorem process_dicom_no_input_witness :
    noDecodableInput envNoDir ∧
    (process_dicom envNoDir st0 =
      Except.ok ({ st0 with volume := some (synthVol envNoDir.noise),
                            spacing := some ((1 : ℚ), 1, 1) }, true) ∧
     (synthVol envNoDir.noise).dim = (128, 128, 128)) :=
  ⟨Or.inl rfl, process_dicom_no_input envNoDir st0 (Or.inl rfl) rfl rfl⟩

/-- Claim C4 (counterexample): a run whose decoded-path artifact save fails
(dicomSaveOk = false) does not propagate the storage failure: the outer
handler absorbs it into the synthesis fallback and process_dicom reports
success, so storage failure is not fatal and the fallback absorbs more than
just absent input. -/
theorem process_dicom_storage_failure_absorbed :
    envSaveFail.dicomSaveOk = false ∧ exOk (process_dicom envSaveFail st0) = true := by
  constructor
  · rfl
  · decide

/-- Claim C4 (amended): process_dicom propagates a failure if and only if
the synthesis fallback itself fails.  Whenever synthesis works, every run
succeeds — including runs whose decoded-path storage write failed; when the
synthesis fails and the decoded-path save also fails, the error escapes and
the whole pipeline invocation reports failure. -/
theorem process_dicom_fatal_only_on_synth_failure (env : Env) (failAfter : Option ℕ) (st : Store) :
    (env.synthArrayOk = true → env.synthSaveOk = true →
      ∃ r, process_dicom env st = Except.ok r) ∧
    ((env.synthArrayOk = false ∨ env.synthSaveOk = false) → env.dicomSaveOk = false →
      process_dicom env st = Except.error "Error generating synthetic volume" ∧
      start_processing env failAfter st = Except.error "Error generating synthetic volume") := by
  constructor
  · intro ha hs
    rcases process_dicom_split env st with hcase | ⟨_, _, rv, nsp, hok⟩
    · exact ⟨_, by rw [hcase]; exact generate_synthetic_volume_ok env st ha hs⟩
    · exact ⟨_, hok⟩
  · intro hsf hdf
    rcases process_dicom_split env st with hcase | ⟨_, hsv, _⟩
    · have herr := hcase.trans (generate_synthetic_volume_err env st hsf)
      refine ⟨herr, ?_⟩
      unfold start_processing
      rw [herr]
    · rw [hdf] at hsv
      cases hsv

/-- Witness for process_dicom_fatal_only_on_synth_failure: with working
synthesis a failed decoded-path save still yields success; with failing
synthesis and a failed decoded-path save both process_dicom and the full
pipeline invocation report the synthesis error. -/
theorem process_dicom_fatal_only_on_synth_failure_witness :
    (∃ r, process_dicom envSaveFail st0 = Except.ok r) ∧
    (process_dicom envAllFail st0 = Except.error "Error generating synthetic volume" ∧
     start_processing envAllFail none st0 = Except.error "Error generating synthetic volume") :=
  ⟨(process_dicom_fatal_only_on_synth_failure envSaveFail none st0).1 rfl rfl,
   (process_dicom_fatal_only_on_synth_failure envAllFail none st0).2 (Or.inr rfl) rfl⟩

/-- Claim C10: whenever process_dicom takes the synthesis fallback (absent
or undecodable input, or an absorbed decoded-path storage failure) and the
synthesis succeeds, the persisted Volume artifact is the raw synthetic
array — the fixed spheres plus the Gaussian noise samples, exactly as
synthVol builds it — with Spacing (1, 1, 1): neither the sentinel
normalization nor the resampler touches this path. -/
theorem process_dicom_fallback_raw_synthetic (env : Env) (st : Store)
    (h : fallbackTrigger env) (ha : env.synthArrayOk = true) (hs : env.synthSaveOk = true) :
    process_dicom env st =
      Except.ok ({ st with volume := some (synthVol env.noise),
                           spacing := some ((1 : ℚ), 1, 1) }, true) := by
  rcases process_dicom_split env st with hcase | ⟨hnd, hsv, _⟩
  · rw [hcase]
    exact generate_synthetic_volume_ok env st ha hs
  · rcases h with h | h
    · exact absurd h hnd
    · rw [h] at hsv
      cases hsv

/-- Witness for process_dicom_fallback_raw_synthetic: a run whose decoded
path fails at the save persists exactly the raw synthetic array built from
its noise samples. -/
theorem process_dicom_fallback_raw_synthetic_witness :
    fallbackTrigger envFallback ∧
    process_dicom envFallback st0 =
      Except.ok ({ st0 with volume := some (synthVol envFallback.noise),
                            spacing := some ((1 : ℚ), 1, 1) }, true) :=
  ⟨Or.inr rfl, process_dicom_fallback_raw_synthetic envFallback st0 (Or.inr rfl) rfl rfl⟩

/-- Folding min over a constant list keeps the constant. -/
lemma foldl_min_const (t : List ℚ) (c : ℚ) (h : ∀ x ∈ t, x = c) : t.foldl min c = c := by
  induction t with
  | nil => rfl
  | cons a tl ih =>
      have ha : a = c := h a (List.mem_cons_self a tl)
      rw [List.foldl_cons, ha, min_self]
      exact ih (fun x hx => h x (List.mem_cons_of_mem a hx))

/-- Folding max over a constant list keeps the constant. -/
lemma foldl_max_const (t : List ℚ) (c : ℚ) (h : ∀ x ∈ t, x = c) : t.foldl max c = c := by
  induction t with
  | nil => rfl
  | cons a tl ih =>
      have ha : a = c := h a (List.mem_cons_self a tl)
      rw [List.foldl_cons, ha, max_self]
      exact ih (fun x hx => h x (List.mem_cons_of_mem a hx))

/-- The minimum of a nonempty constant list is that constant. -/
lemma listMinQ_const (l : List ℚ) (c : ℚ) (hne : l ≠ []) (h : ∀ x ∈ l, x = c) :
    listMinQ l = some c := by
  cases l with
  | nil => exact absurd rfl hne
  | cons a t =>
      have ha : a = c := h a (List.mem_cons_self a t)
      have hl : listMinQ (a :: t) = some (t.foldl min a) := rfl
      rw [hl, ha, foldl_min_const t c (fun x hx => h x (List.mem_cons_of_mem a hx))]

/-- The maximum of a nonempty constant list is that constant. -/
lemma listMaxQ_const (l : List ℚ) (c : ℚ) (hne : l ≠ []) (h : ∀ x ∈ l, x = c) :
    listMaxQ l = some c := by
  cases l with
  | nil => exact absurd rfl hne
  | cons a t =>
      have ha : a = c := h a (List.mem_cons_self a t)
      have hl : listMaxQ (a :: t) = some (t.foldl max a) := rfl
      rw [hl, ha, foldl_max_const t c (fun x hx => h x (List.mem_cons_of_mem a hx))]

/-- Claim C5 (counterexample): on the all-one 2-cube mask — a degenerate
mask — create_3d_model does not return an empty mesh: it fails, with the
level-range error of the extraction routine. -/
theorem create_3d_model_all_ones_raises :
    exOk (create_3d_model none stMaskOne) = false ∧
    exErr (create_3d_model none stMaskOne) =
      some "Surface level must not be outside volume data range." := by
  constructor
  · decide
  · decide

/-- With a strictly positive voxel count on every axis the sample list of a
volume is nonempty. -/
lemma volValues_ne_nil (v : RawVol)
    (h1 : 0 < v.dim.1) (h2 : 0 < v.dim.2.1) (h3 : 0 < v.dim.2.2) :
    volValues v ≠ [] := by
  have hmem : v.data 0 0 0 ∈ volValues v := by
    unfold volValues
    refine List.mem_flatMap.mpr ⟨0, List.mem_range.mpr h1, ?_⟩
    refine List.mem_flatMap.mpr ⟨0, List.mem_range.mpr h2, ?_⟩
    exact List.mem_map.mpr ⟨0, List.mem_range.mpr h3, rfl⟩
  intro hnil
  rw [hnil] at hmem
  exact List.not_mem_nil _ hmem

/-- Claim C5 (amended): on a degenerate mask (every voxel 0 or every voxel
1) with at least 2 voxels along every axis — the shape regime in which the
extractor runs its level check at all — the extractor raises: the iso-level
0.5 lies strictly outside the one-point data range, and create_3d_model
propagates the error instead of returning an empty mesh.  (A mask smaller
than 2x2x2 fails even earlier, with the shape error of the extractor.) -/
theorem create_3d_model_degenerate_error (st : Store) (m : MaskVol) (failAfter : Option ℕ)
    (hm : st.mask = some m)
    (h2a : 2 ≤ m.dim.1) (h2b : 2 ≤ m.dim.2.1) (h2c : 2 ≤ m.dim.2.2)
    (hdeg : (∀ q ∈ volValues (maskToQ (transpose210 m)), q = 0) ∨
            (∀ q ∈ volValues (maskToQ (transpose210 m)), q = 1)) :
    create_3d_model failAfter st =
      Except.error "Surface level must not be outside volume data range." := by
  have hne : volValues (maskToQ (transpose210 m)) ≠ [] :=
    volValues_ne_nil _ (Nat.lt_of_lt_of_le (by norm_num) h2c)
      (Nat.lt_of_lt_of_le (by norm_num) h2b) (Nat.lt_of_lt_of_le (by norm_num) h2a)
  have hshape : ¬((maskToQ (transpose210 m)).dim.1 < 2 ∨
      (maskToQ (transpose210 m)).dim.2.1 < 2 ∨ (maskToQ (transpose210 m)).dim.2.2 < 2) := by
    push_neg
    exact ⟨h2c, h2b, h2a⟩
  have hmc : marching_cubes (maskToQ (transpose210 m)) (1/2) =
      Except.error "Surface level must not be outside volume data range." := by
    unfold marching_cubes
    rw [if_neg hshape]
    rcases hdeg with h | h
    · rw [listMinQ_const _ 0 hne h, listMaxQ_const _ 0 hne h]
      simp only []
      rw [if_pos (Or.inr (by norm_num))]
    · rw [listMinQ_const _ 1 hne h, listMaxQ_const _ 1 hne h]
      simp only []
      rw [if_pos (Or.inl (by norm_num))]
  unfold create_3d_model
  rw [hm]
  simp only [hmc]

/-- Witness for create_3d_model_degenerate_error on the all-zero 2-cube
mask. -/
theorem create_3d_model_degenerate_error_witness :
    stMaskZero.mask = some maskZero ∧
    2 ≤ maskZero.dim.1 ∧ 2 ≤ maskZero.dim.2.1 ∧ 2 ≤ maskZero.dim.2.2 ∧
    create_3d_model none stMaskZero =
      Except.error "Surface level must not be outside volume data range." :=
  ⟨rfl, by decide, by decide, by decide,
   create_3d_model_degenerate_error stMaskZero maskZero none rfl
     (by decide) (by decide) (by decide) (Or.inl (by decide))⟩

/-- Claim C6 (counterexample): writing the two-triangle mesh built from
vertsC and facesC with a failure after one record reports failure but leaves
the truncated file — header declaring 2 triangles, 1 record present — at the
artifact path: the previous artifact is destroyed, nothing is deleted, and
an incomplete file remains in place. -/
theorem mesh_write_midfail_cex :
    (writeMeshArtifact vertsC facesC (some 1) (some prevMesh)).2 = false ∧
    (writeMeshArtifact vertsC facesC (some 1) (some prevMesh)).1 = some truncatedMeshFile ∧
    truncatedMeshFile.records.length < truncatedMeshFile.count ∧
    (writeMeshArtifact vertsC facesC (some 1) (some prevMesh)).1 ≠ some prevMesh ∧
    (writeMeshArtifact vertsC facesC (some 1) (some prevMesh)).1 ≠ none := by
  refine ⟨by decide, by decide, by decide, by decide, by decide⟩

/-- Claim C6 (amended): mesh serialization is not all-or-nothing: the write
opens the artifact path directly (destroying the previous content) and a
failure after k of the records leaves the truncated file — full declared
count, only k records — in place while the stage reports failure; no
temporary-file replace and no deletion happens. -/
theorem mesh_write_midfail_not_atomic (verts : List Vec3) (faces : List (ℕ × ℕ × ℕ))
    (prev : Option STLBinary) (k : ℕ) (hk : k < (buildRecords verts faces).length) :
    (writeMeshArtifact verts faces (some k) prev).2 = false ∧
    (writeMeshArtifact verts faces (some k) prev).1 =
      some { count := (buildRecords verts faces).length,
             records := (buildRecords verts faces).take k } ∧
    ((buildRecords verts faces).take k).length < (buildRecords verts faces).length := by
  have hnot : ¬ (buildRecords verts faces).length ≤ k := Nat.not_le.mpr hk
  refine ⟨?_, ?_, ?_⟩
  · unfold writeMeshArtifact stlSave
    simp [hnot]
  · unfold writeMeshArtifact stlSave
    simp [hnot]
  · rw [List.length_take]
    exact lt_of_le_of_lt (Nat.min_le_left _ _) (lt_of_le_of_lt (le_refl _) hk)

/-- Witness for mesh_write_midfail_not_atomic at the concrete two-triangle
mesh with a failure after the first record. -/
theorem mesh_write_midfail_not_atomic_witness :
    1 < (buildRecords vertsC facesC).length ∧
    ((writeMeshArtifact vertsC facesC (some 1) (some prevMesh)).2 = false ∧
     (writeMeshArtifact vertsC facesC (some 1) (some prevMesh)).1 =
       some { count := (buildRecords vertsC facesC).length,
              records := (buildRecords vertsC facesC).take 1 } ∧
     ((buildRecords vertsC facesC).take 1).length < (buildRecords vertsC facesC).length) :=
  ⟨by decide, mesh_write_midfail_not_atomic vertsC facesC (some prevMesh) 1 (by decide)⟩

/-- Claim C9: the Mesh Serializer round-trips: for any extractor output
(vertex list and face list), parsing the written binary STL yields exactly
one triangle per face — the same triangle count — and each parsed triangle
carries exactly the original three vertex positions (equality in ℚ, hence
within any floating-point tolerance). -/
theorem stl_roundtrip (verts : List Vec3) (faces : List (ℕ × ℕ × ℕ)) :
    readSTL (writeSTL (buildRecords verts faces)) = faces.map (triOf verts) ∧
    (readSTL (writeSTL (buildRecords verts faces))).length = faces.length := by
  constructor
  · unfold readSTL writeSTL buildRecords
    rw [List.map_map]
    rfl
  · unfold readSTL writeSTL buildRecords
    simp

end PipelineProofs
